import Mathlib

/-!
Verification of the image acquisition and adaptation pipeline of the
pic-prompt repository (package `prompt_any`), shallowly embedded in Lean.

The embedding follows the Python source:
  * `src/prompt_any/images/image_data.py`      (class `ImageData`)
  * `src/prompt_any/images/image_registry.py`  (class `ImageRegistry`)
  * `src/prompt_any/images/image_downloader.py`(class `ImageDownloader`)
  * `src/prompt_any/builder/prompt_builder.py` (`PromptBuilder.download_image_data`)
  * `src/prompt_any/providers/provider.py`     (`Provider.process_image`)

The external PIL library (`Image.open`, `Image.save`, `Image.thumbnail`) is
modelled by an oracle structure `PILEnv` of pure functions; the embedded code
is parametrised by it, universally quantified in the theorems and
instantiated with concrete stubs for witnesses and counterexamples.
Python exceptions are modelled by `Except PyErr`; the constructors of
`PyErr` are exactly the exception classes the source can raise along the
modelled paths (the repository defines no `ImageTooLargeError` and no
`UnknownImageError` class anywhere).
-/

namespace PicPrompt

/-- Raw byte buffers (Python `bytes`): lists of byte values. -/
abbrev Bytes := List Nat

/-- The Python exceptions raisable by the embedded code.
`imageProcessingError` is `prompt_any.core.errors.ImageProcessingError`,
`imageSourceError` is `prompt_any.images.errors.ImageSourceError`,
`imageDownloadError` is `prompt_any.images.errors.ImageDownloadError`
(in the source it carries a rendered message string; here it carries the
structured `(path, cause)` pairs the message is rendered from, see
`renderDownloadErrors`), `pilOpenError` is an exception escaping
`PIL.Image.open` outside any `try` block, `keyError` is a Python dict
`KeyError`, and `typeError` is the `TypeError` raised by
`base64.b64encode(None)` / `BytesIO(None)`.  `attributeError` is the
`AttributeError` from a method call on `None`. -/
inductive PyErr where
  | imageProcessingError (msg : String)
  | imageSourceError (msg : String)
  | imageDownloadError (failures : List (String × String))
  | pilOpenError (msg : String)
  | keyError (key : String)
  | typeError
  | attributeError
deriving Repr, DecidableEq

/-- Abstract model of a decoded `PIL.Image.Image` object: an identity tag
(standing for the full pixel content) plus the pixel size `(width, height)`
exposed by `.size`. -/
structure PImage where
  tag : Nat
  width : Nat
  height : Nat
deriving Repr, DecidableEq

/-- Oracle for the behaviour of the external PIL library.
`imageOpen` models `Image.open(BytesIO(b))` (`.error` = the open raised,
e.g. `UnidentifiedImageError`); `saveResampled` models the bytes produced by
`img.save(..., format=img.format, quality=60, optimize=True,
resampling=LANCZOS)` in `ImageData.resample_image`; `thumbnail` models the
in-place `img.thumbnail((w, h), LANCZOS)` mutation; `save` models the plain
`img.save(output, format=img.format)` in `ImageData.resize`; `scaleDims`
models the float computation of the target dimensions in `ImageData.resize`
(`scale = sqrt(max_size / size[0] * size[1])`, `int(size[0]*scale)`,
`int(size[1]*scale)`) — its exact radicand is modelled rationally by
`resizeScaleSq` below. -/
structure PILEnv where
  imageOpen : Bytes → Except String PImage
  saveResampled : PImage → Bytes
  thumbnail : PImage → Nat → Nat → PImage
  save : PImage → Bytes
  scaleDims : Nat → Nat → Nat → Nat × Nat

/-! ### Python `dict` (insertion-ordered) as an association list -/

/-- Upsert into an insertion-ordered Python dict: `m[k] = v`.  When the key
is present its value is replaced in place, otherwise the pair is appended at
the end — exactly Python's `dict` assignment semantics (a Python dict never
holds a key twice, and all dicts built below are duplicate-free). -/
def dictSet {α : Type} (m : List (String × α)) (k : String) (v : α) :
    List (String × α) :=
  match m with
  | [] => [(k, v)]
  | kv :: rest => if kv.1 = k then (k, v) :: rest else kv :: dictSet rest k v

/-- Lookup in a Python dict: `m.get(k)`. -/
def dictGet {α : Type} (m : List (String × α)) (k : String) : Option α :=
  match m with
  | [] => none
  | kv :: rest => if kv.1 = k then some kv.2 else dictGet rest k

theorem dictGet_dictSet_self {α : Type} (m : List (String × α)) (k : String)
    (v : α) : dictGet (dictSet m k v) k = some v := by
  induction m with
  | nil => simp [dictSet, dictGet]
  | cons kv rest ih =>
    by_cases hk : kv.1 = k
    · simp [dictSet, dictGet, hk]
    · simp [dictSet, dictGet, hk, ih]

theorem dictGet_dictSet_ne {α : Type} (m : List (String × α)) (k k' : String)
    (v : α) (hne : k' ≠ k) : dictGet (dictSet m k v) k' = dictGet m k' := by
  have hkk' : ¬ ((k : String) = k') := fun hc => hne hc.symm
  induction m with
  | nil => simp [dictSet, dictGet, hkk']
  | cons kv rest ih =>
    by_cases hk : kv.1 = k
    · have hk' : ¬ (kv.1 = k') := fun hc => hne (hc ▸ hk ▸ rfl)
      simp [dictSet, dictGet, hk, hk', hkk']
    · by_cases hk2 : kv.1 = k'
      · simp only [dictSet, hk, if_false]
        simp [dictGet, hk2]
      · simp only [dictSet, hk, if_false]
        simp [dictGet, hk2, ih]

/-- The keys of a dict after an upsert: unchanged when the key was present,
the new key appended at the end when absent. -/
theorem dictSet_keys {α : Type} (m : List (String × α)) (k : String) (v : α) :
    (dictSet m k v).map Prod.fst =
      if k ∈ m.map Prod.fst then m.map Prod.fst else m.map Prod.fst ++ [k] := by
  induction m with
  | nil => simp [dictSet]
  | cons kv rest ih =>
    by_cases hk : kv.1 = k
    · simp [dictSet, hk]
    · have hne : ¬ ((k : String) = kv.1) := fun hc => hk hc.symm
      by_cases hmem : k ∈ rest.map Prod.fst
      · simp [dictSet, hk, ih, hmem, hne]
      · simp [dictSet, hk, ih, hmem, hne]

/-- Upserting preserves duplicate-freeness of the keys. -/
theorem dictSet_keys_nodup {α : Type} (m : List (String × α)) (k : String)
    (v : α) (h : (m.map Prod.fst).Nodup) :
    ((dictSet m k v).map Prod.fst).Nodup := by
  rw [dictSet_keys]
  by_cases hmem : k ∈ m.map Prod.fst
  · simpa [hmem] using h
  · simp only [hmem, if_false, List.nodup_append]
    refine ⟨h, List.nodup_singleton _, ?_⟩
    intro x hx hx'
    simp only [List.mem_singleton] at hx'
    exact hmem (hx' ▸ hx)

/-! ### base64 (Python `base64.b64encode(...).decode("utf-8")`) -/

/-- The base64 alphabet. -/
def base64Chars : List Char :=
  "ABCDEFGHIJKLMNOPQRSTUVWXYZabcdefghijklmnopqrstuvwxyz0123456789+/".toList

/-- Character of a 6-bit group. -/
def b64Char (n : Nat) : Char := base64Chars.getD n '='

/-- RFC 4648 base64 of a byte list, three bytes at a time, with `=` padding. -/
def b64encodeChunks : Bytes → List Char
  | [] => []
  | [b1] => [b64Char (b1 / 4), b64Char (b1 % 4 * 16), '=', '=']
  | [b1, b2] =>
      [b64Char (b1 / 4), b64Char (b1 % 4 * 16 + b2 / 16),
       b64Char (b2 % 16 * 4), '=']
  | b1 :: b2 :: b3 :: rest =>
      b64Char (b1 / 4) :: b64Char (b1 % 4 * 16 + b2 / 16) ::
      b64Char (b2 % 16 * 4 + b3 / 64) :: b64Char (b3 % 64) ::
      b64encodeChunks rest

/-- `base64.b64encode(bs).decode("utf-8")`. -/
def b64encode (bs : Bytes) : String := String.mk (b64encodeChunks bs)

/-- base64 output length: 4 characters per 3-byte group, rounded up. -/
theorem b64encode_length (bs : Bytes) :
    (b64encode bs).length = 4 * ((bs.length + 2) / 3) := by
  show (b64encodeChunks bs).length = 4 * ((bs.length + 2) / 3)
  induction bs using b64encodeChunks.induct with
  | case1 => simp [b64encodeChunks]
  | case2 b1 => simp [b64encodeChunks]
  | case3 b1 b2 => simp [b64encodeChunks]
  | case4 b1 b2 b3 rest ih =>
    simp only [b64encodeChunks, List.length_cons, ih, List.length]
    omega

/-! ### `ImageData` (src/prompt_any/images/image_data.py) -/

/-- The state of an `ImageData` instance: `image_obj` (the decoded PIL image,
`None` until bytes are first assigned), `image_path`, `binary_data`,
`media_type`, and the `provider_encoded_images` dict. -/
structure ImageData where
  imagePath : String
  imageObj : Option PImage
  binaryData : Option Bytes
  mediaType : Option String
  providerEncodedImages : List (String × String)
deriving Repr, DecidableEq

/-- The `binary_data` property setter (image_data.py lines 51–65): a non-`None`
value is first decoded with `Image.open`; on failure an `ImageProcessingError`
is raised and neither `_binary_data` nor `image_obj` changes; on success
`image_obj` holds the freshly opened image and `_binary_data` the value.
Assigning `None` stores `None` without touching `image_obj`. -/
def setBinaryData (env : PILEnv) (d : ImageData) (value : Option Bytes) :
    Except PyErr ImageData :=
  match value with
  | none => .ok { d with binaryData := none }
  | some v =>
    match env.imageOpen v with
    | .ok img => .ok { d with imageObj := some img, binaryData := some v }
    | .error e => .error (.imageProcessingError e)

/-- `ImageData.__init__(image_path, binary_data, media_type)`: starts with
`image_obj = None` and an empty provider dict, then runs the `binary_data`
setter (which may raise) and stores the media type. -/
def mkImageData (env : PILEnv) (path : String) (binary : Option Bytes)
    (mediaType : Option String) : Except PyErr ImageData := do
  let d0 : ImageData :=
    { imagePath := path, imageObj := none, binaryData := none,
      mediaType := none, providerEncodedImages := [] }
  let d1 ← setBinaryData env d0 binary
  .ok { d1 with mediaType := mediaType }

/-- `ImageData.get_dimensions` (lines 75–76): `self.image_obj.size`; calling it
with `image_obj = None` is a Python `AttributeError`. -/
def getDimensions (d : ImageData) : Except PyErr (Nat × Nat) :=
  match d.imageObj with
  | some img => .ok (img.width, img.height)
  | none => .error .attributeError

/-- `ImageData.add_provider_encoded_image` (lines 78–79). -/
def addProviderEncodedImage (d : ImageData) (providerName encoded : String) :
    ImageData :=
  { d with providerEncodedImages :=
      dictSet d.providerEncodedImages providerName encoded }

/-- `ImageData.encode_as_base64` (lines 134–139): when `binary_data` is not
`None`, base64-encode it, store it under the provider key and return it;
otherwise return `None` leaving the record untouched (no exception).
The pair is (returned value, record state after the call). -/
def encodeAsBase64 (d : ImageData) (providerName : String) :
    Option String × ImageData :=
  match d.binaryData with
  | some bd =>
    let encoded := b64encode bd
    (some encoded, addProviderEncodedImage d providerName encoded)
  | none => (none, d)

/-- `ImageData.resample_image` (lines 88–105): re-open the current bytes,
save them at `quality=60` with LANCZOS resampling, assign the result through
the `binary_data` setter and return it.  `BytesIO(None)` on unset bytes is a
`TypeError`; a failing re-open raises the PIL exception unwrapped (no `try`
here). -/
def resampleImage (env : PILEnv) (d : ImageData) :
    Except PyErr (Bytes × ImageData) :=
  match d.binaryData with
  | none => .error .typeError
  | some bd =>
    match env.imageOpen bd with
    | .error e => .error (.pilOpenError e)
    | .ok img => do
      let output := env.saveResampled img
      let d1 ← setBinaryData env d (some output)
      .ok (output, d1)

/-- The square of the scale factor computed by `ImageData.resize`
(image_data.py line 115).  The source evaluates
`scale = sqrt(max_size / self.image_obj.size[0] * self.image_obj.size[1])`;
by Python operator precedence the radicand is `(max_size / width) * height`.
We model the radicand exactly over `ℚ` (squaring away the float `sqrt`;
`Real.sqrt` is strictly monotone on nonnegatives, so two scales are equal iff
their radicands are). -/
def resizeScaleSq (maxSize width height : ℚ) : ℚ := maxSize / width * height

/-- Modelled from the spec: the radicand of the scale factor the specification
prescribes for the geometric-resize tier, `sqrt(max_size / (width * height))`
— the byte budget divided by the pixel area. -/
def specResizeScaleSq (maxSize width height : ℚ) : ℚ :=
  maxSize / (width * height)

/-- `ImageData.resize` (lines 107–132): reads `self.image_obj.size`
(`AttributeError` when no image was ever assigned), computes target
dimensions from the float scale (modelled by `env.scaleDims`, radicand
`resizeScaleSq`), shrinks `image_obj` in place with `thumbnail`, saves it,
and assigns the saved bytes through the `binary_data` setter (which re-opens
them, replacing `image_obj` again).  Returns the resized bytes. -/
def resize (env : PILEnv) (d : ImageData) (maxSize : Nat) :
    Except PyErr (Bytes × ImageData) :=
  match d.imageObj with
  | none => .error .attributeError
  | some img => do
    let dims := env.scaleDims maxSize img.width img.height
    let img1 := env.thumbnail img dims.1 dims.2
    let resizedBytes := env.save img1
    let d1 ← setBinaryData env { d with imageObj := some img1 }
        (some resizedBytes)
    .ok (resizedBytes, d1)

/-- `ImageData.resize_and_encode` (lines 141–176): three-tier escalation that
stores each tier's encoding under the provider key as it goes (last write
wins) and returns `self`.  Tier 1: base64 of the current bytes; if longer
than `max_size`, tier 2: resample and re-encode; if still longer, tier 3:
geometric resize and re-encode.  There is no final size check and no
`ImageTooLargeError` anywhere in the source. -/
def resizeAndEncode (env : PILEnv) (d : ImageData) (maxSize : Nat)
    (providerName : String) : Except PyErr ImageData :=
  match encodeAsBase64 d providerName with
  | (none, d1) => .ok d1
  | (some e1, d1) =>
    if e1.length > maxSize then do
      let (rb, d2) ← resampleImage env d1
      let d3 ← setBinaryData env d2 (some rb)
      match encodeAsBase64 d3 providerName with
      | (none, d4) => .ok d4
      | (some e2, d4) =>
        if e2.length > maxSize then do
          let (zb, d5) ← resize env d4 maxSize
          let d6 ← setBinaryData env d5 (some zb)
          .ok (encodeAsBase64 d6 providerName).2
        else .ok d4
    else .ok d1

/-! ### `Provider.process_image` (src/prompt_any/providers/provider.py) -/

/-- The fields of `ImageConfig` relevant to `process_image`
(src/prompt_any/core/image_config.py): `requires_base64` and `max_size`. -/
structure ImageConfig where
  requiresBase64 : Bool
  maxSize : Nat
deriving Repr, DecidableEq

/-- One adaptation-tier operation performed during `process_image`, recorded
for instrumentation: the direct base64 encode (tier 1), the lossy resample
(tier 2), the geometric resize (tier 3). -/
inductive TierEvent where
  | encode
  | resample
  | resize
deriving Repr, DecidableEq

/-- `Provider.encode_image` (provider.py lines 167–171):
`base64.b64encode(binary_data).decode("utf-8")`; called on `None`
(a record with no bytes) this is a Python `TypeError`. -/
def encodeImage (binary : Option Bytes) : Except PyErr String :=
  match binary with
  | some b => .ok (b64encode b)
  | none => .error .typeError

/-- `Provider.process_image` (provider.py lines 121–165), instrumented with
the list of tier operations performed.  When `requires_base64` is false the
whole body is skipped and the record is returned as-is.  Otherwise: encode
the current bytes (tier 1); if the encoding is longer than `max_size`,
resample and re-encode (tier 2); if still longer, resize and re-encode
(tier 3); finally store the last computed encoding under the provider key —
unconditionally, with no size check on the tier-3 output and no
`ImageTooLargeError` (no such class exists in the repository). -/
def processImage (env : PILEnv) (cfg : ImageConfig) (providerName : String)
    (d : ImageData) : Except PyErr ImageData × List TierEvent :=
  if cfg.requiresBase64 then
    match encodeImage d.binaryData with
    | .error e => (.error e, [.encode])
    | .ok e1 =>
      if e1.length > cfg.maxSize then
        match resampleImage env d with
        | .error e => (.error e, [.encode, .resample])
        | .ok (resampled, d1) =>
          let e2 := b64encode resampled
          if e2.length > cfg.maxSize then
            match resize env d1 cfg.maxSize with
            | .error e => (.error e, [.encode, .resample, .resize])
            | .ok (resized, d2) =>
              let e3 := b64encode resized
              (.ok (addProviderEncodedImage d2 providerName e3),
               [.encode, .resample, .resize])
          else
            (.ok (addProviderEncodedImage d1 providerName e2),
             [.encode, .resample])
      else
        (.ok (addProviderEncodedImage d providerName e1), [.encode])
  else
    (.ok d, [])

/-! ### `ImageRegistry` (src/prompt_any/images/image_registry.py) -/

/-- `ImageRegistry`: a Python dict from image path to `ImageData`. -/
structure ImageRegistry where
  imageData : List (String × ImageData)
deriving Repr, DecidableEq

/-- A fresh record as built by `ImageData(image_path)`: no bytes, no image
object, no media type, empty provider dict (the constructor's `binary_data`
setter is a no-op on `None`). -/
def emptyImageData (path : String) : ImageData :=
  { imagePath := path, imageObj := none, binaryData := none,
    mediaType := none, providerEncodedImages := [] }

/-- `ImageRegistry.add_image_path` (image_registry.py lines 9–10):
`self.image_data[image_path] = ImageData(image_path)` — unconditionally
binds the key to a fresh empty record, also when a record (possibly with
fetched bytes) is already present. -/
def addImagePath (reg : ImageRegistry) (path : String) : ImageRegistry :=
  { imageData := dictSet reg.imageData path (emptyImageData path) }

/-- `ImageRegistry.add_image_data` (lines 12–13): upsert keyed by the
record's own path. -/
def addImageData (reg : ImageRegistry) (d : ImageData) : ImageRegistry :=
  { imageData := dictSet reg.imageData d.imagePath d }

/-- `ImageRegistry.add_provider_encoded_image` (lines 15–20):
`self.image_data[image_path].add_provider_encoded_image(...)` — the dict
subscript raises a Python `KeyError` when the path was never registered
(no record is silently created); otherwise the encoded string is stored
under the provider key on the existing record. -/
def regAddProviderEncodedImage (reg : ImageRegistry)
    (imagePath providerName encodedImage : String) :
    Except PyErr ImageRegistry :=
  match dictGet reg.imageData imagePath with
  | none => .error (.keyError imagePath)
  | some d =>
    .ok { imageData := dictSet reg.imageData imagePath
            (addProviderEncodedImage d providerName encodedImage) }

/-- `ImageRegistry.get_image_data` (lines 34–35). -/
def getImageData (reg : ImageRegistry) (path : String) : Option ImageData :=
  dictGet reg.imageData path

/-! ### `ImageDownloader` (src/prompt_any/images/image_downloader.py) -/

/-- One registered image source, the capability interface of
`ImageSource` (sources/base.py): a pure `can_handle` predicate, a fetch that
may raise (the shipped `LocalFileSource`/`HttpSource`/`S3Source` wrap their
failures in `ImageSourceError`), and a media-type lookup. -/
structure Source where
  canHandle : String → Bool
  getImage : String → Except PyErr Bytes
  getMediaType : String → Option String

/-- `ImageDownloader`: the `protocol → source` dict, in registration order. -/
structure Downloader where
  sources : List (String × Source)

/-- `ImageDownloader._get_source_for_path` (lines 57–77): first registered
source whose `can_handle` accepts the path; raises `ImageProcessingError`
("No registered image source can handle path: ...") when none does. -/
def getSourceForPath (dl : Downloader) (path : String) :
    Except PyErr Source :=
  match dl.sources.find? (fun ps => ps.2.canHandle path) with
  | some ps => .ok ps.2
  | none =>
      .error (.imageProcessingError
        ("No registered image source can handle path: " ++ path))

/-- `ImageDownloader.download` (lines 79–101), instrumented: the `Bool` is
true iff the underlying source fetch (`source.get_image`) was actually
invoked (it is not when source resolution already failed).  On success the
fetched bytes and media type are wrapped in a fresh `ImageData` whose
constructor decodes the bytes (and may raise `ImageProcessingError`). -/
def downloadInstr (env : PILEnv) (dl : Downloader) (path : String) :
    Except PyErr ImageData × Bool :=
  match getSourceForPath dl path with
  | .error e => (.error e, false)
  | .ok src =>
    match src.getImage path with
    | .error e => (.error e, true)
    | .ok binaryData =>
        (mkImageData env path (some binaryData) (src.getMediaType path), true)

/-- `ImageDownloader.download` without the instrumentation bit. -/
def download (env : PILEnv) (dl : Downloader) (path : String) :
    Except PyErr ImageData :=
  (downloadInstr env dl path).1

/-! ### `PromptBuilder.download_image_data`
(src/prompt_any/builder/prompt_builder.py lines 107–150) -/

/-- The loop body of `download_image_data` over the snapshot
`self.image_registry.get_all_image_data()`: records whose `binary_data` is
already set are skipped; otherwise the path is downloaded; a success is
upserted into the registry; an `ImageSourceError` is collected as a
`(path, message)` pair; any other exception (in particular the
`ImageProcessingError` from an unmatched source) is NOT caught by the
`except ImageSourceError` clause and aborts the loop.  Returns the registry,
the collected failures, the paths actually fetched, and the uncaught
exception if one escaped. -/
def downloadLoop (env : PILEnv) (dl : Downloader) :
    List ImageData → ImageRegistry → List (String × String) → List String →
    ImageRegistry × List (String × String) × List String × Option PyErr
  | [], reg, errs, fetched => (reg, errs, fetched, none)
  | d :: rest, reg, errs, fetched =>
    if d.binaryData.isSome then downloadLoop env dl rest reg errs fetched
    else
      match downloadInstr env dl d.imagePath with
      | (.ok d1, fl) =>
          downloadLoop env dl rest (addImageData reg d1) errs
            (if fl then fetched ++ [d.imagePath] else fetched)
      | (.error (.imageSourceError msg), fl) =>
          downloadLoop env dl rest reg (errs ++ [(d.imagePath, msg)])
            (if fl then fetched ++ [d.imagePath] else fetched)
      | (.error e, fl) =>
          (reg, errs, (if fl then fetched ++ [d.imagePath] else fetched),
           some e)

/-- The multi-line message `ImageDownloadError` is constructed with:
`"Failed to download images:\n"` followed by one `"- {path}: {error}"` line
per collected failure. -/
def renderDownloadErrors (failures : List (String × String)) : String :=
  "Failed to download images:\n" ++
    String.intercalate "\n"
      (failures.map (fun pe => "- " ++ pe.1 ++ ": " ++ pe.2))

/-- `PromptBuilder.download_image_data(downloader, raise_on_error)`.
`shouldDownload` stands for `self._should_download_images()` (whether any
configured provider has `needs_download`).  The result is the final registry
state (the instance field, mutated in place in Python, hence available to
the caller even when an exception was raised), the exception raised if any,
and the instrumented list of fetched paths. -/
def downloadImageData (env : PILEnv) (dl : Downloader) (reg : ImageRegistry)
    (shouldDownload : Bool) (raiseOnError : Bool) :
    ImageRegistry × Option PyErr × List String :=
  if reg.imageData.length > 0 then
    if ¬ shouldDownload then (reg, none, [])
    else
      match downloadLoop env dl (reg.imageData.map (fun kv => kv.2)) reg [] []
      with
      | (reg1, _errs, fetched, some e) => (reg1, some e, fetched)
      | (reg1, errs, fetched, none) =>
        if errs ≠ [] then
          if raiseOnError then
            (reg1, some (.imageDownloadError errs), fetched)
          else (reg1, none, fetched)
        else (reg1, none, fetched)
  else (reg, none, [])

/-! ### Concrete stub environments for witnesses and counterexamples -/

/-- The encoding stored under a provider key by a successful run. -/
def storedEncoding (r : Except PyErr ImageData) (providerName : String) :
    Option String :=
  match r with
  | .ok d => dictGet d.providerEncodedImages providerName
  | .error _ => none

/-- The 2×2 image every decodable stub buffer opens to. -/
def cImg : PImage := { tag := 0, width := 2, height := 2 }

/-- A concrete PIL stub: every buffer except `[0]` decodes to `cImg`;
`[0]` fails to decode (a corrupt buffer).  `saveResampled` and `save` both
produce a 6-byte file (whose base64 is 8 characters) and `thumbnail` keeps
the image: this matches the real behaviour of `ImageData.resize` at the
inputs used below, where the Python scale
`sqrt(max_size / width * height) = sqrt(4 / 2 * 2) = 2.0` yields target
dimensions `(4, 4)`, strictly larger than `(2, 2)`, so `thumbnail` (which
never upscales) leaves the image unchanged; `scaleDims` returns exactly
those doubled dimensions. -/
def cEnv : PILEnv :=
  { imageOpen := fun bs =>
      if bs = [0] then .error "cannot identify image file" else .ok cImg
    saveResampled := fun _ => [1, 2, 3, 4, 5, 6]
    thumbnail := fun img _ _ => img
    save := fun _ => [1, 2, 3, 4, 5, 6]
    scaleDims := fun _ w h => (w * 2, h * 2) }

/-- Same stub except that resampling shrinks the file to 3 bytes (base64
length 4). -/
def cEnvShrink : PILEnv := { cEnv with saveResampled := fun _ => [1, 2, 3] }

/-- A 4-byte original file; its base64 is 8 characters long. -/
def cBytes : Bytes := [10, 20, 30, 40]

/-- A record holding `cBytes`, as produced by
`ImageData("img.png", cBytes, "image/png")` under `cEnv`. -/
def cRec : ImageData :=
  { imagePath := "img.png", imageObj := some cImg, binaryData := some cBytes,
    mediaType := some "image/png", providerEncodedImages := [] }

/-! ## The claims -/

/-- **C3** (code_bug).  The spec says the tier-3 scale factor is
`sqrt(max_size / (width * height))`.  The source (image_data.py line 115)
computes `sqrt(max_size / self.image_obj.size[0] * self.image_obj.size[1])`,
whose radicand by Python precedence is `(max_size / width) * height`.  At
`max_size = 10000`, `width = height = 1000` the code's radicand is `10000`
(scale `100.0`, an upscaling target that `thumbnail` ignores, so tier 3
never shrinks such an image), while the claim's is `1/100` (scale `0.1`).
Since `sqrt` is injective on nonnegatives, the scales differ. -/
theorem c3_scale_divergence :
    resizeScaleSq 10000 1000 1000 = 10000 ∧
    specResizeScaleSq 10000 1000 1000 = 1 / 100 ∧
    resizeScaleSq 10000 1000 1000 ≠ specResizeScaleSq 10000 1000 1000 := by
  refine ⟨?_, ?_, ?_⟩ <;> simp only [resizeScaleSq, specResizeScaleSq] <;>
    norm_num

/-- **C8** (confirmed).  For a provider whose configuration has
`requires_base64 = False`, `process_image` returns the record completely
unchanged and performs none of the three tiers (no encode, no resample, no
resize event), for every PIL behaviour, provider name and record. -/
theorem c8_no_base64_passthrough (env : PILEnv) (cfg : ImageConfig)
    (providerName : String) (d : ImageData)
    (h : cfg.requiresBase64 = false) :
    processImage env cfg providerName d = (.ok d, []) := by
  simp [processImage, h]

/-- Witness for C8 at a concrete record and config. -/
theorem c8_witness :
    processImage cEnv { requiresBase64 := false, maxSize := 4 } "openai" cRec
      = (.ok cRec, []) :=
  c8_no_base64_passthrough cEnv
    { requiresBase64 := false, maxSize := 4 } "openai" cRec rfl

/-- **C10** (confirmed).  `encode_as_base64` on a record whose bytes are
unset returns `None`, raises nothing, and leaves the record — in particular
its `provider_encoded_images` dict — unchanged. -/
theorem c10_encode_none (d : ImageData) (providerName : String)
    (h : d.binaryData = none) :
    encodeAsBase64 d providerName = (none, d) := by
  simp [encodeAsBase64, h]

/-- Witness for C10 on a freshly registered (never fetched) record. -/
theorem c10_witness :
    encodeAsBase64 (emptyImageData "a.png") "openai" =
      (none, emptyImageData "a.png") :=
  c10_encode_none (emptyImageData "a.png") "openai" rfl

/-- **C5, counterexample** (corrected).  `register_path` on an
already-present path is NOT a no-op: `add_image_path` unconditionally binds
the key to `ImageData(image_path)`, a fresh empty record, so a fully fetched
record — here one holding `cBytes` — is replaced by one whose bytes are
unset. -/
theorem c5_counterexample :
    addImagePath { imageData := [("img.png", cRec)] } "img.png" =
      { imageData := [("img.png", emptyImageData "img.png")] } ∧
    getImageData (addImagePath { imageData := [("img.png", cRec)] } "img.png")
        "img.png" ≠ some cRec ∧
    (emptyImageData "img.png").binaryData = none ∧
    cRec.binaryData = some cBytes := by
  refine ⟨by decide, by decide, rfl, rfl⟩

/-- **C5, amended** (corrected).  Registering a path that is already present
replaces its record with a fresh empty one (discarding any fetched bytes)
rather than leaving it unchanged; the rest of the claim holds: other paths
are unaffected, and the registry never holds two records for the same path
(key upserts keep the key list duplicate-free). -/
theorem c5_register_replaces (reg : ImageRegistry) (p : String)
    (h : (reg.imageData.map Prod.fst).Nodup) :
    getImageData (addImagePath reg p) p = some (emptyImageData p) ∧
    (∀ q, q ≠ p → getImageData (addImagePath reg p) q = getImageData reg q) ∧
    ((addImagePath reg p).imageData.map Prod.fst).Nodup := by
  refine ⟨dictGet_dictSet_self _ _ _,
    fun q hq => dictGet_dictSet_ne _ _ _ _ hq,
    dictSet_keys_nodup _ _ _ h⟩

/-- Witness for C5's amended statement on a one-record registry. -/
theorem c5_witness :
    getImageData (addImagePath { imageData := [("img.png", cRec)] } "img.png")
        "img.png" = some (emptyImageData "img.png") ∧
    (∀ q, q ≠ "img.png" →
      getImageData (addImagePath { imageData := [("img.png", cRec)] }
        "img.png") q =
      getImageData { imageData := [("img.png", cRec)] } q) ∧
    ((addImagePath { imageData := [("img.png", cRec)] }
        "img.png").imageData.map Prod.fst).Nodup :=
  c5_register_replaces { imageData := [("img.png", cRec)] } "img.png"
    (by decide)

/-- **C7, counterexample** (corrected).  The fail-fast half of the claim
holds, but the "dimensions defined iff raw bytes set and decodable" half
does not: starting from a record with decodable bytes (reachable via the
setter itself, first conjunct), assigning `binary_data = None` succeeds and
clears the bytes while leaving `image_obj` — and hence `get_dimensions` —
fully defined. -/
theorem c7_counterexample :
    setBinaryData cEnv (emptyImageData "img.png") (some cBytes) =
      .ok { imagePath := "img.png", imageObj := some cImg,
            binaryData := some cBytes, mediaType := none,
            providerEncodedImages := [] } ∧
    setBinaryData cEnv
        { imagePath := "img.png", imageObj := some cImg,
          binaryData := some cBytes, mediaType := none,
          providerEncodedImages := [] } none =
      .ok { imagePath := "img.png", imageObj := some cImg,
            binaryData := none, mediaType := none,
            providerEncodedImages := [] } ∧
    getDimensions
        { imagePath := "img.png", imageObj := some cImg, binaryData := none,
          mediaType := none, providerEncodedImages := [] } = .ok (2, 2) := by
  refine ⟨rfl, rfl, rfl⟩

/-- **C7, amended** (corrected).  Assigning bytes fails fast: an undecodable
buffer raises `ImageProcessingError` at the assignment itself (the record is
not updated), and a decodable buffer immediately defines the dimensions of
the decoded image.  However, dimensions are defined iff bytes were at some
point successfully assigned — not iff they are currently set: assigning
`None` clears `binary_data` but leaves `image_obj` (and thus dimensions)
untouched. -/
theorem c7_fail_fast (env : PILEnv) (d : ImageData) (v : Bytes) :
    (∀ msg, env.imageOpen v = .error msg →
      setBinaryData env d (some v) = .error (.imageProcessingError msg)) ∧
    (∀ img, env.imageOpen v = .ok img →
      setBinaryData env d (some v) =
        .ok { d with imageObj := some img, binaryData := some v } ∧
      getDimensions { d with imageObj := some img, binaryData := some v } =
        .ok (img.width, img.height)) ∧
    setBinaryData env d none = .ok { d with binaryData := none } := by
  refine ⟨fun msg hmsg => ?_, fun img himg => ⟨?_, rfl⟩, rfl⟩
  · simp [setBinaryData, hmsg]
  · simp [setBinaryData, himg]

/-- Witness for C7's amended statement: the corrupt buffer `[0]` fails fast
under `cEnv`, and the decodable buffer `cBytes` defines dimensions. -/
theorem c7_witness :
    setBinaryData cEnv (emptyImageData "img.png") (some [0]) =
      .error (.imageProcessingError "cannot identify image file") ∧
    setBinaryData cEnv (emptyImageData "img.png") (some cBytes) =
      .ok { emptyImageData "img.png" with
            imageObj := some cImg, binaryData := some cBytes } := by
  refine ⟨(c7_fail_fast cEnv (emptyImageData "img.png") [0]).1
      "cannot identify image file" rfl, ?_⟩
  exact ((c7_fail_fast cEnv (emptyImageData "img.png") cBytes).2.1
      cImg rfl).1

/-- **C9, counterexample** (corrected).  The repository defines no
`UnknownImageError` class; `add_provider_encoded_image` on an unregistered
path fails with a plain dict `KeyError` (raised by the subscript before any
mutation, so no record is silently created — that half of the claim holds). -/
theorem c9_counterexample :
    regAddProviderEncodedImage { imageData := [] } "img.png" "openai" "enc"
      = .error (.keyError "img.png") := rfl

/-- **C9, amended** (corrected).  For an unregistered path the operation
fails with `KeyError` (not a dedicated `UnknownImageError`, which does not
exist in the code base) and creates no record; for a registered path it
stores the encoded string under the provider key of the existing record. -/
theorem c9_unknown_path_fails (reg : ImageRegistry)
    (p providerName enc : String) :
    (getImageData reg p = none →
      regAddProviderEncodedImage reg p providerName enc =
        .error (.keyError p)) ∧
    (∀ d, getImageData reg p = some d →
      regAddProviderEncodedImage reg p providerName enc =
        .ok { imageData := dictSet reg.imageData p
                (addProviderEncodedImage d providerName enc) } ∧
      getImageData
          { imageData := dictSet reg.imageData p
              (addProviderEncodedImage d providerName enc) } p =
        some (addProviderEncodedImage d providerName enc) ∧
      dictGet (addProviderEncodedImage d providerName enc).providerEncodedImages
          providerName = some enc) := by
  constructor
  · intro h
    simp [regAddProviderEncodedImage, getImageData] at h ⊢
    simp [h]
  · intro d hd
    refine ⟨?_, ?_, ?_⟩
    · simp [regAddProviderEncodedImage, getImageData] at hd ⊢
      simp [hd]
    · exact dictGet_dictSet_self _ _ _
    · exact dictGet_dictSet_self _ _ _

/-- Witness for C9's amended statement: the empty registry fails with
`KeyError`, a one-record registry stores the encoding. -/
theorem c9_witness :
    regAddProviderEncodedImage { imageData := [] } "a.png" "openai" "enc" =
      .error (.keyError "a.png") ∧
    regAddProviderEncodedImage { imageData := [("a.png", cRec)] } "a.png"
        "openai" "enc" =
      .ok { imageData := [("a.png", addProviderEncodedImage cRec "openai"
              "enc")] } := by
  constructor
  · exact (c9_unknown_path_fails { imageData := [] } "a.png" "openai"
      "enc").1 (by decide)
  · exact ((c9_unknown_path_fails { imageData := [("a.png", cRec)] } "a.png"
      "openai" "enc").2 cRec (by decide)).1

/-- The record state after resampling `cRec` under `cEnv` (bytes replaced by
the 6-byte resampled file, image re-opened). -/
def cRecResampled : ImageData :=
  { imagePath := "img.png", imageObj := some cImg,
    binaryData := some [1, 2, 3, 4, 5, 6], mediaType := some "image/png",
    providerEncodedImages := [] }

/-- The record state after resampling `cRec` under `cEnvShrink` (bytes
replaced by the 3-byte resampled file). -/
def cRecShrunk : ImageData :=
  { imagePath := "img.png", imageObj := some cImg,
    binaryData := some [1, 2, 3], mediaType := some "image/png",
    providerEncodedImages := [] }

/-- **C1, counterexample** (corrected).  The claim says `process_image`
either produces an encoding of length at most `max_size` or raises
`ImageTooLargeError`.  The repository defines no `ImageTooLargeError` class
at all (`PyErr` enumerates every exception class the modelled code can
raise), and after tier 3 the encoding is stored unconditionally: on the
4-byte image `cRec` with `max_size = 4`, all three tiers produce 8-character
encodings, yet the call returns successfully and stores the oversized
8-character string under the provider key. -/
theorem c1_counterexample :
    (processImage cEnv { requiresBase64 := true, maxSize := 4 } "openai"
        cRec).1.isOk = true ∧
    storedEncoding (processImage cEnv { requiresBase64 := true, maxSize := 4 }
        "openai" cRec).1 "openai" = some (b64encode [1, 2, 3, 4, 5, 6]) ∧
    4 < (b64encode [1, 2, 3, 4, 5, 6]).length := by
  refine ⟨rfl, rfl, by decide⟩

/-- **C1, amended** (corrected).  When the tier-1 and tier-2 encodings both
exceed the budget and the tier-3 pipeline succeeds, `process_image` returns
successfully and stores the tier-3 encoding under the provider key with NO
check of its length against `max_size`: the operation either returns an
encoding within budget or silently stores the tier-3 encoding even when it
is longer than the budget; it never raises (there is no `ImageTooLargeError`
in the code base). -/
theorem c1_tier3_stored_unconditionally (env : PILEnv) (cfg : ImageConfig)
    (providerName : String) (d d1 d2 : ImageData) (bs rb zb : Bytes)
    (hreq : cfg.requiresBase64 = true)
    (hb : d.binaryData = some bs)
    (h1 : (b64encode bs).length > cfg.maxSize)
    (hres : resampleImage env d = .ok (rb, d1))
    (h2 : (b64encode rb).length > cfg.maxSize)
    (hrez : resize env d1 cfg.maxSize = .ok (zb, d2)) :
    processImage env cfg providerName d =
      (.ok (addProviderEncodedImage d2 providerName (b64encode zb)),
       [.encode, .resample, .resize]) := by
  simp [processImage, hreq, encodeImage, hb, h1, hres, h2, hrez]

/-- Witness for C1's amended statement: on `cRec` with budget 4 every tier
overflows, and the final oversized encoding is stored anyway. -/
theorem c1_witness :
    processImage cEnv { requiresBase64 := true, maxSize := 4 } "openai" cRec
      = (.ok (addProviderEncodedImage cRecResampled "openai"
            (b64encode [1, 2, 3, 4, 5, 6])),
         [.encode, .resample, .resize]) ∧
    4 < (b64encode [1, 2, 3, 4, 5, 6]).length :=
  ⟨c1_tier3_stored_unconditionally cEnv
      { requiresBase64 := true, maxSize := 4 } "openai" cRec cRecResampled
      cRecResampled cBytes [1, 2, 3, 4, 5, 6] [1, 2, 3, 4, 5, 6] rfl rfl
      (by decide) rfl (by decide) rfl,
   by decide⟩

/-- **C2** (confirmed).  Whenever the direct (tier-1) encoding exceeds the
budget but the resampled (tier-2) encoding fits, `process_image` returns the
resampled-tier output stored under the provider key, and the performed
operations are exactly `[encode, resample]` — the tier-3 `resize` is never
invoked.  (By the same control flow, `resize` appears in the event list only
when the resampled encoding still exceeded the budget.) -/
theorem c2_tier_escalation (env : PILEnv) (cfg : ImageConfig)
    (providerName : String) (d d1 : ImageData) (bs rb : Bytes)
    (hreq : cfg.requiresBase64 = true)
    (hb : d.binaryData = some bs)
    (h1 : (b64encode bs).length > cfg.maxSize)
    (hres : resampleImage env d = .ok (rb, d1))
    (h2 : ¬ (b64encode rb).length > cfg.maxSize) :
    processImage env cfg providerName d =
      (.ok (addProviderEncodedImage d1 providerName (b64encode rb)),
       [.encode, .resample]) := by
  simp [processImage, hreq, encodeImage, hb, h1, hres, h2]

/-- Witness for C2: under `cEnvShrink` the 4-byte original encodes to 8 > 4
characters but the 3-byte resample encodes to exactly 4 ≤ 4, so the
resampled encoding is returned and no resize happens. -/
theorem c2_witness :
    processImage cEnvShrink { requiresBase64 := true, maxSize := 4 } "openai"
        cRec =
      (.ok (addProviderEncodedImage cRecShrunk "openai"
          (b64encode [1, 2, 3])), [.encode, .resample]) :=
  c2_tier_escalation cEnvShrink { requiresBase64 := true, maxSize := 4 }
    "openai" cRec cRecShrunk cBytes [1, 2, 3] rfl rfl (by decide) rfl
    (by decide)

/-! ### Characterising the batch-download loop -/

/-- The registry snapshot the loop iterates over
(`self.image_registry.get_all_image_data()`). -/
def snapshotOf (reg : ImageRegistry) : List ImageData :=
  reg.imageData.map (fun kv => kv.2)

/-- A download outcome the `except ImageSourceError` clause can absorb
(success, or an `ImageSourceError`); anything else escapes the loop. -/
def isNonFatal : Except PyErr ImageData → Bool
  | .ok _ => true
  | .error (.imageSourceError _) => true
  | .error _ => false

/-- Every pending record of the snapshot downloads either successfully or
with an `ImageSourceError` (so no exception escapes the loop). -/
def fatalFreeB (env : PILEnv) (dl : Downloader) (snap : List ImageData) :
    Bool :=
  snap.all (fun d =>
    d.binaryData.isSome || isNonFatal (downloadInstr env dl d.imagePath).1)

/-- The `(path, message)` failure pairs the loop collects: one per pending
record whose download raises `ImageSourceError`, in snapshot order —
exactly the failing paths, never a succeeding or already-fetched one. -/
def pendingFailures (env : PILEnv) (dl : Downloader)
    (snap : List ImageData) : List (String × String) :=
  snap.filterMap (fun d =>
    if d.binaryData.isSome then none
    else
      match (downloadInstr env dl d.imagePath).1 with
      | .error (.imageSourceError msg) => some (d.imagePath, msg)
      | _ => none)

/-- The paths for which an underlying source fetch is performed: the pending
records whose source resolution succeeds. -/
def fetchList (env : PILEnv) (dl : Downloader) (snap : List ImageData) :
    List String :=
  snap.filterMap (fun d =>
    if d.binaryData.isSome then none
    else if (downloadInstr env dl d.imagePath).2 then some d.imagePath
    else none)

/-- The registry after the loop: every pending record whose download
succeeds is upserted (`add_image_data`), all others are left alone. -/
def applyDownloads (env : PILEnv) (dl : Downloader) (snap : List ImageData)
    (reg : ImageRegistry) : ImageRegistry :=
  snap.foldl (fun r d =>
    if d.binaryData.isSome then r
    else
      match (downloadInstr env dl d.imagePath).1 with
      | .ok d1 => addImageData r d1
      | .error _ => r) reg

/-- A successfully downloaded record carries the requested path and fetched
bytes (the `ImageData` constructor stores both). -/
theorem downloadInstr_ok (env : PILEnv) (dl : Downloader) (p : String)
    (d1 : ImageData) (fl : Bool)
    (h : downloadInstr env dl p = (.ok d1, fl)) :
    d1.imagePath = p ∧ d1.binaryData.isSome = true := by
  unfold downloadInstr at h
  split at h
  · simp at h
  · rename_i src _
    split at h
    · simp at h
    · rename_i bytesv _
      cases hO : env.imageOpen bytesv with
      | error e =>
        simp [mkImageData, setBinaryData, hO, Except.instMonad,
          Except.bind] at h
      | ok img =>
        simp [mkImageData, setBinaryData, hO, Except.instMonad,
          Except.bind] at h
        rw [← h.1]
        exact ⟨rfl, rfl⟩

/-- When no exception escapes, the loop is the fold of successful upserts,
appends exactly the `ImageSourceError` pairs to the collected failures,
fetches exactly the pending resolvable paths, and raises nothing. -/
theorem downloadLoop_spec (env : PILEnv) (dl : Downloader)
    (snap : List ImageData) :
    ∀ (reg : ImageRegistry) (errs : List (String × String))
      (fetched : List String), fatalFreeB env dl snap = true →
      downloadLoop env dl snap reg errs fetched =
        (applyDownloads env dl snap reg,
         errs ++ pendingFailures env dl snap,
         fetched ++ fetchList env dl snap, none) := by
  induction snap with
  | nil =>
    intro reg errs fetched _
    simp [downloadLoop, applyDownloads, pendingFailures, fetchList]
  | cons d rest ih =>
    intro reg errs fetched hff
    have hparts :
        (d.binaryData.isSome ||
          isNonFatal (downloadInstr env dl d.imagePath).1) = true ∧
        fatalFreeB env dl rest = true := by
      simpa [fatalFreeB, List.all_cons] using hff
    by_cases hb : d.binaryData.isSome
    · simp [downloadLoop, hb, applyDownloads, pendingFailures, fetchList,
        ih reg errs fetched hparts.2]
    · cases hDI : downloadInstr env dl d.imagePath with
      | mk res fl =>
        cases res with
        | ok d1 =>
          cases fl with
          | false =>
            have hrec := ih (addImageData reg d1) errs fetched hparts.2
            simp [downloadLoop, hb, hDI, hrec, applyDownloads,
              pendingFailures, fetchList, List.filterMap_cons,
              List.foldl_cons]
          | true =>
            have hrec := ih (addImageData reg d1) errs
              (fetched ++ [d.imagePath]) hparts.2
            simp [downloadLoop, hb, hDI, hrec, applyDownloads,
              pendingFailures, fetchList, List.filterMap_cons,
              List.foldl_cons, List.append_assoc]
        | error e =>
          cases e with
          | imageSourceError msg =>
            cases fl with
            | false =>
              have hrec := ih reg (errs ++ [(d.imagePath, msg)]) fetched
                hparts.2
              simp [downloadLoop, hb, hDI, hrec, applyDownloads,
                pendingFailures, fetchList, List.filterMap_cons,
                List.foldl_cons, List.append_assoc]
            | true =>
              have hrec := ih reg (errs ++ [(d.imagePath, msg)])
                (fetched ++ [d.imagePath]) hparts.2
              simp [downloadLoop, hb, hDI, hrec, applyDownloads,
                pendingFailures, fetchList, List.filterMap_cons,
                List.foldl_cons, List.append_assoc]
          | imageProcessingError msg =>
            have hcontra := hparts.1
            rw [hDI] at hcontra
            simp [hb, isNonFatal] at hcontra
          | imageDownloadError fs =>
            have hcontra := hparts.1
            rw [hDI] at hcontra
            simp [hb, isNonFatal] at hcontra
          | pilOpenError msg =>
            have hcontra := hparts.1
            rw [hDI] at hcontra
            simp [hb, isNonFatal] at hcontra
          | keyError k =>
            have hcontra := hparts.1
            rw [hDI] at hcontra
            simp [hb, isNonFatal] at hcontra
          | typeError =>
            have hcontra := hparts.1
            rw [hDI] at hcontra
            simp [hb, isNonFatal] at hcontra
          | attributeError =>
            have hcontra := hparts.1
            rw [hDI] at hcontra
            simp [hb, isNonFatal] at hcontra

/-- The fold of upserts does not touch paths outside the snapshot. -/
theorem applyDownloads_not_mem (env : PILEnv) (dl : Downloader)
    (snap : List ImageData) :
    ∀ (reg : ImageRegistry) (p : String),
      p ∉ snap.map (fun d => d.imagePath) →
      getImageData (applyDownloads env dl snap reg) p = getImageData reg p := by
  induction snap with
  | nil => intro reg p _; simp [applyDownloads]
  | cons d rest ih =>
    intro reg p hp
    simp only [List.map_cons, List.mem_cons] at hp
    push_neg at hp
    by_cases hb : d.binaryData.isSome
    · have hstep : applyDownloads env dl (d :: rest) reg =
          applyDownloads env dl rest reg := by
        simp [applyDownloads, List.foldl_cons, hb]
      rw [hstep]; exact ih reg p hp.2
    · cases hDI : (downloadInstr env dl d.imagePath).1 with
      | ok d1 =>
        have hpath := (downloadInstr_ok env dl d.imagePath d1
          (downloadInstr env dl d.imagePath).2 (by rw [← hDI])).1
        have hstep : applyDownloads env dl (d :: rest) reg =
            applyDownloads env dl rest (addImageData reg d1) := by
          simp [applyDownloads, List.foldl_cons, hb, hDI]
        rw [hstep, ih (addImageData reg d1) p hp.2]
        simp only [getImageData, addImageData]
        exact dictGet_dictSet_ne _ _ _ _
          (fun hc => hp.1 (by rw [← hpath]; exact hc))
      | error e =>
        have hstep : applyDownloads env dl (d :: rest) reg =
            applyDownloads env dl rest reg := by
          simp [applyDownloads, List.foldl_cons, hb, hDI]
        rw [hstep]; exact ih reg p hp.2

/-- After the fold, every pending record of the snapshot whose download
succeeds is present in the registry under its path, with the downloaded
record as value (snapshot paths assumed pairwise distinct, which the
registry's dict keying guarantees). -/
theorem applyDownloads_mem (env : PILEnv) (dl : Downloader)
    (snap : List ImageData) :
    ∀ (reg : ImageRegistry) (d : ImageData) (d1 : ImageData),
      (snap.map (fun x => x.imagePath)).Nodup →
      d ∈ snap → d.binaryData.isSome = false →
      (downloadInstr env dl d.imagePath).1 = .ok d1 →
      getImageData (applyDownloads env dl snap reg) d.imagePath = some d1 := by
  induction snap with
  | nil => intro reg d d1 _ hd; cases hd
  | cons h rest ih =>
    intro reg d d1 hnodup hd hb hok
    simp only [List.map_cons, List.nodup_cons] at hnodup
    rcases List.mem_cons.mp hd with rfl | hd'
    · have hpath := (downloadInstr_ok env dl d.imagePath d1
        (downloadInstr env dl d.imagePath).2 (by rw [← hok])).1
      have hstep : applyDownloads env dl (d :: rest) reg =
          applyDownloads env dl rest (addImageData reg d1) := by
        simp [applyDownloads, List.foldl_cons, hb, hok]
      rw [hstep, applyDownloads_not_mem env dl rest _ _ hnodup.1]
      simp only [getImageData, addImageData]
      exact hpath ▸ dictGet_dictSet_self _ _ _
    · by_cases hbh : h.binaryData.isSome
      · have hstep : applyDownloads env dl (h :: rest) reg =
            applyDownloads env dl rest reg := by
          simp [applyDownloads, List.foldl_cons, hbh]
        rw [hstep]; exact ih reg d d1 hnodup.2 hd' hb hok
      · cases hDI : (downloadInstr env dl h.imagePath).1 with
        | ok e1 =>
          have hstep : applyDownloads env dl (h :: rest) reg =
              applyDownloads env dl rest (addImageData reg e1) := by
            simp [applyDownloads, List.foldl_cons, hbh, hDI]
          rw [hstep]; exact ih _ d d1 hnodup.2 hd' hb hok
        | error e =>
          have hstep : applyDownloads env dl (h :: rest) reg =
              applyDownloads env dl rest reg := by
            simp [applyDownloads, List.foldl_cons, hbh, hDI]
          rw [hstep]; exact ih reg d d1 hnodup.2 hd' hb hok

/-- Python `str.startswith(pre)`, evaluated on the character lists. -/
def pyStartsWith (s pre : String) : Bool := pre.data.isPrefixOf s.data

/-- Stub mirroring `LocalFileSource.can_handle` (local_file_source.py line
61: any path without a remote scheme prefix) whose fetch succeeds on
`"b.png"` with `cBytes` and fails with a wrapped `IOError` otherwise. -/
def cLocalSource : Source :=
  { canHandle := fun path =>
      !(pyStartsWith path "http://" || pyStartsWith path "https://" ||
        pyStartsWith path "s3://")
    getImage := fun path =>
      if path = "b.png" then .ok cBytes
      else .error (.imageSourceError ("Failed to read " ++ path))
    getMediaType := fun _ => some "image/png" }

/-- Stub mirroring `HttpSource.can_handle` (http_source.py line 84) whose
every fetch fails with an HTTP 404 wrapped in `ImageSourceError`
(http_source.py line 42). -/
def cHttpSource : Source :=
  { canHandle := fun path =>
      pyStartsWith path "http://" || pyStartsWith path "https://"
    getImage := fun url => .error (.imageSourceError ("HTTP 404: " ++ url))
    getMediaType := fun _ => some "image/png" }

/-- The downloader with the built-in registration order of
`ImageDownloader.__init__` without an S3 client: file, http, https. -/
def cDl : Downloader :=
  { sources := [("file", cLocalSource), ("http", cHttpSource),
                ("https", cHttpSource)] }

/-- The two-path registry of C4's counterexample: an s3 URI (no S3 client is
registered, so no source can handle it) and a local path whose fetch would
succeed. -/
def cReg4 : ImageRegistry :=
  { imageData := [("s3://bucket/img.png", emptyImageData "s3://bucket/img.png"),
                  ("b.png", emptyImageData "b.png")] }

/-- **C4, counterexample** (corrected).  An unmatched-source failure is NOT
collected into the aggregated error: `_get_source_for_path` raises
`ImageProcessingError`, which the loop's `except ImageSourceError` clause
does not catch.  On a batch of N = 2 paths where the first has no matching
source and the second would download fine, the batch aborts on the first
path with the raw `ImageProcessingError` — not a `BatchDownloadError`-style
aggregate — the second path is never attempted, and the registry keeps no
fetched record for it. -/
theorem c4_counterexample :
    downloadImageData cEnv cDl cReg4 true true =
      (cReg4,
       some (.imageProcessingError
         "No registered image source can handle path: s3://bucket/img.png"),
       []) ∧
    download cEnv cDl "b.png" =
      .ok { imagePath := "b.png", imageObj := some cImg,
            binaryData := some cBytes, mediaType := some "image/png",
            providerEncodedImages := [] } := by
  exact ⟨rfl, rfl⟩

/-- **C4, amended** (corrected).  Restricted to fetch failures
(`ImageSourceError`, the only kind the loop catches), the aggregation
contract holds: every pending path is attempted, the raised
`ImageDownloadError` carries exactly the `(path, cause)` pairs of the K
failing paths in snapshot order (part 3: no path whose download succeeds
ever appears among them), and the registry holds the fetched record of
every success (part 2).  A path with no matching source instead raises
`ImageProcessingError` immediately, aborting the batch (see the
counterexample). -/
theorem c4_fetch_failures_aggregated (env : PILEnv) (dl : Downloader)
    (reg : ImageRegistry)
    (hff : fatalFreeB env dl (snapshotOf reg) = true)
    (hK : pendingFailures env dl (snapshotOf reg) ≠ [])
    (hnodup : ((snapshotOf reg).map (fun d => d.imagePath)).Nodup) :
    downloadImageData env dl reg true true =
      (applyDownloads env dl (snapshotOf reg) reg,
       some (.imageDownloadError (pendingFailures env dl (snapshotOf reg))),
       fetchList env dl (snapshotOf reg)) ∧
    (∀ d ∈ snapshotOf reg, d.binaryData.isSome = false →
      ∀ d1, (downloadInstr env dl d.imagePath).1 = .ok d1 →
        getImageData (applyDownloads env dl (snapshotOf reg) reg) d.imagePath
          = some d1) ∧
    (∀ p d1, (downloadInstr env dl p).1 = .ok d1 →
      p ∉ (pendingFailures env dl (snapshotOf reg)).map Prod.fst) := by
  have hlen : reg.imageData.length > 0 := by
    cases hreg : reg.imageData with
    | nil => exact absurd (by simp [pendingFailures, snapshotOf, hreg]) hK
    | cons a l => simp
  refine ⟨?_, ?_, ?_⟩
  · have hloop := downloadLoop_spec env dl (snapshotOf reg) reg [] [] hff
    simp only [snapshotOf] at hloop hK
    simp [downloadImageData, hlen, hloop, snapshotOf, hK]
  · intro d hd hb d1 hok
    exact applyDownloads_mem env dl (snapshotOf reg) reg d d1 hnodup hd hb hok
  · intro p d1 hok hmem
    simp only [pendingFailures, List.mem_map, List.mem_filterMap] at hmem
    obtain ⟨pair, ⟨d, hd, hsome⟩, hfst⟩ := hmem
    by_cases hb : d.binaryData.isSome
    · simp [hb] at hsome
    · cases hI : (downloadInstr env dl d.imagePath).1 with
      | ok e1 =>
        rw [if_neg hb, hI] at hsome
        simp at hsome
      | error e =>
        cases e with
        | imageSourceError msg =>
          rw [if_neg hb, hI] at hsome
          simp only [Option.some.injEq] at hsome
          rw [← hsome] at hfst
          rw [← hfst, hI] at hok
          exact Except.noConfusion hok
        | imageProcessingError msg => rw [if_neg hb, hI] at hsome; simp at hsome
        | imageDownloadError fs => rw [if_neg hb, hI] at hsome; simp at hsome
        | pilOpenError msg => rw [if_neg hb, hI] at hsome; simp at hsome
        | keyError k => rw [if_neg hb, hI] at hsome; simp at hsome
        | typeError => rw [if_neg hb, hI] at hsome; simp at hsome
        | attributeError => rw [if_neg hb, hI] at hsome; simp at hsome

/-- The two-path registry of C4's witness: an HTTP path whose fetch 404s
(collected) and a local path whose fetch succeeds. -/
def cReg4w : ImageRegistry :=
  { imageData := [("http://x/a.png", emptyImageData "http://x/a.png"),
                  ("b.png", emptyImageData "b.png")] }

/-- Witness for C4's amended statement: one 404 and one success — the
aggregate carries exactly the failing pair, both paths were fetched, and
the success is in the registry. -/
theorem c4_witness :
    downloadImageData cEnv cDl cReg4w true true =
      (applyDownloads cEnv cDl (snapshotOf cReg4w) cReg4w,
       some (.imageDownloadError
         (pendingFailures cEnv cDl (snapshotOf cReg4w))),
       fetchList cEnv cDl (snapshotOf cReg4w)) ∧
    (∀ d ∈ snapshotOf cReg4w, d.binaryData.isSome = false →
      ∀ d1, (downloadInstr cEnv cDl d.imagePath).1 = .ok d1 →
        getImageData (applyDownloads cEnv cDl (snapshotOf cReg4w) cReg4w)
          d.imagePath = some d1) ∧
    (∀ p d1, (downloadInstr cEnv cDl p).1 = .ok d1 →
      p ∉ (pendingFailures cEnv cDl (snapshotOf cReg4w)).map Prod.fst) :=
  c4_fetch_failures_aggregated cEnv cDl cReg4w (by decide) (by decide)
    (by decide)

/-- **C6** (confirmed).  Records whose bytes are already set are skipped by
the batch download.  Starting from a registry with one pending path `p`
whose download succeeds: the first run performs exactly one source fetch
(fetch list `[p]`) and stores the fetched record; the second run on the
resulting registry performs zero fetches and leaves everything unchanged —
so running the batch twice performs exactly one underlying fetch for `p`. -/
theorem c6_idempotent_fetch (env : PILEnv) (dl : Downloader) (p : String)
    (d1 : ImageData)
    (hok : downloadInstr env dl p = (.ok d1, true)) :
    downloadImageData env dl { imageData := [(p, emptyImageData p)] } true
        true = ({ imageData := [(p, d1)] }, none, [p]) ∧
    downloadImageData env dl { imageData := [(p, d1)] } true true =
      ({ imageData := [(p, d1)] }, none, []) := by
  obtain ⟨hpath, hbin⟩ := downloadInstr_ok env dl p d1 true hok
  have h1 : (downloadInstr env dl p).1 = .ok d1 := by rw [hok]
  have h2 : (downloadInstr env dl p).2 = true := by rw [hok]
  constructor
  · have hff1 : fatalFreeB env dl [emptyImageData p] = true := by
      simp [fatalFreeB, emptyImageData, isNonFatal, h1]
    have hloop := downloadLoop_spec env dl [emptyImageData p]
      { imageData := [(p, emptyImageData p)] } [] [] hff1
    have hap : applyDownloads env dl [emptyImageData p]
        { imageData := [(p, emptyImageData p)] } =
        { imageData := [(p, d1)] } := by
      simp [applyDownloads, emptyImageData, h1, addImageData, hpath, dictSet]
    have hpf : pendingFailures env dl [emptyImageData p] = [] := by
      simp [pendingFailures, emptyImageData, h1]
    have hfl : fetchList env dl [emptyImageData p] = [p] := by
      simp [fetchList, emptyImageData, h2]
    rw [hap, hpf, hfl] at hloop
    simp [downloadImageData, hloop]
  · have hff2 : fatalFreeB env dl [d1] = true := by
      simp [fatalFreeB, hbin]
    have hloop := downloadLoop_spec env dl [d1]
      { imageData := [(p, d1)] } [] [] hff2
    have hap : applyDownloads env dl [d1] { imageData := [(p, d1)] } =
        { imageData := [(p, d1)] } := by
      simp [applyDownloads, hbin]
    have hpf : pendingFailures env dl [d1] = [] := by
      simp [pendingFailures, hbin]
    have hfl : fetchList env dl [d1] = [] := by
      simp [fetchList, hbin]
    rw [hap, hpf, hfl] at hloop
    simp [downloadImageData, hloop]

/-- The record `cDl` produces for `"b.png"` under `cEnv`. -/
def cDownloaded : ImageData :=
  { imagePath := "b.png", imageObj := some cImg, binaryData := some cBytes,
    mediaType := some "image/png", providerEncodedImages := [] }

/-- Witness for C6 with the concrete downloader `cDl`. -/
theorem c6_witness :
    downloadImageData cEnv cDl
        { imageData := [("b.png", emptyImageData "b.png")] } true true =
      ({ imageData := [("b.png", cDownloaded)] }, none, ["b.png"]) ∧
    downloadImageData cEnv cDl { imageData := [("b.png", cDownloaded)] }
        true true =
      ({ imageData := [("b.png", cDownloaded)] }, none, []) :=
  c6_idempotent_fetch cEnv cDl "b.png" cDownloaded rfl

end PicPrompt
